import Mathlib

/-!
Shallow embedding of `rm_all_gists.py` (TiancongLx/Scripts): a command-line
utility that lists all gists of the authenticated user and deletes them after
confirmation.

Modelling conventions:
* External effects (console prints, HTTP requests, sleeps, reading the
  confirmation line, `sys.exit`, an uncaught exception) are recorded as an
  explicit trace of `Event`s.
* The remote server is a finite list of page responses for `GET /gists`
  (pages `1, 2, ...`); any page beyond the list answers status 200 with an
  empty body.  Each delete request's outcome (an HTTP status, or a
  transport-level exception raised by the call) is given positionally by a
  `List DeleteResult`.
* `datetime.strptime(s, "%Y-%m-%dT%H:%M:%SZ")` is embedded as a
  backtracking matcher following CPython's `_strptime` regular expression
  (ordered alternation, case-insensitive literals, full-match check) followed
  by `datetime` construction validation; failure (`ValueError`) is `none`.
-/

namespace RmAllGists

/-- A gist record as consumed by the script: `id`, `created_at`, the file
names (keys of the `files` mapping, in insertion order), and the optional
`description` (`none` models JSON `null`). -/
structure Gist where
  id : String
  created_at : String
  files : List String
  description : Option String
  deriving DecidableEq, Repr

/-- One observable effect of the program. -/
inductive Event where
  | print (s : String)
  | httpGet (page : Nat)
  | httpDelete (id : String)
  | sleep
  | promptRead
  | exitCode (c : Nat)
  | raiseError (msg : String)
  deriving DecidableEq, Repr

/-- The server's response to one `GET /gists?page=N` request. -/
structure PageResp where
  status : Nat
  body : List Gist
  deriving DecidableEq, Repr

/-- Outcome of one `requests.delete` call: a response status, or a
transport-level exception raised by the call itself. -/
inductive DeleteResult where
  | status (code : Nat)
  | exn (msg : String)
  deriving DecidableEq, Repr

/-! ### Message constants (from the script's literals and f-strings) -/

def MSG_TOKEN_NOT_FOUND : String := "[red]錯誤: 未設置 GITHUB_TOKEN 環境變數[/red]"

def MSG_TOKEN_SETUP_GUIDE : String :=
  "請設置您的 GitHub Personal Access Token:\nLinux/macOS: export GITHUB_TOKEN='your_token'\nWindows PowerShell: $env:GITHUB_TOKEN='your_token'\nWindows CMD: set GITHUB_TOKEN=your_token"

def MSG_START : String := "[bold blue]開始獲取您的 Gists...[/bold blue]"

def MSG_NONE_FOUND : String := "[yellow]未找到任何 Gists[/yellow]"

def MSG_IRREVERSIBLE : String := "[red]此操作不可撤銷！[/red]"

def MSG_DONE : String := "[bold green]操作完成！[/bold green]"

def fetchFailMsg (status : Nat) : String :=
  "[red]獲取 Gists 失敗: " ++ toString status ++ "[/red]"

def foundMsg (n : Nat) : String :=
  "\n[green]找到 " ++ toString n ++ " 個 Gists:[/green]"

def confirmMsg (count : Nat) : String :=
  "\n[yellow]警告: 您即將刪除 " ++ toString count ++ " 個 Gists[/yellow]"

def delWarnMsg (id : String) : String :=
  "[yellow]警告: 刪除 Gist " ++ id ++ " 失敗[/yellow]"

def delErrMsg (id msg : String) : String :=
  "[red]錯誤: 刪除 Gist " ++ id ++ " 時發生異常: " ++ msg ++ "[/red]"

/-! ### `_get_github_token` -/

/-- `_get_github_token`: reads `GITHUB_TOKEN`; Python's `if not token` is
true for a missing variable (`none`) and for the empty string.  Returns the
emitted events and the token (`none` after `sys.exit(1)`). -/
def get_github_token (env : Option String) : List Event × Option String :=
  match env with
  | none => ([.print MSG_TOKEN_NOT_FOUND, .print MSG_TOKEN_SETUP_GUIDE, .exitCode 1], none)
  | some t =>
    if t = "" then
      ([.print MSG_TOKEN_NOT_FOUND, .print MSG_TOKEN_SETUP_GUIDE, .exitCode 1], none)
    else ([], some t)

/-! ### `get_all_gists` -/

/-- The `while True` pagination loop of `get_all_gists`, structurally
recursive over the server's remaining page responses.  The base case is a
page beyond the provided list: the server answers 200 with an empty body and
the loop breaks. -/
def fetchLoop : List PageResp → Nat → List Gist → List Event × Option (List Gist)
  | [], page, acc => ([.httpGet page], some acc)
  | r :: rest, page, acc =>
    if r.status ≠ 200 then
      ([.httpGet page, .print (fetchFailMsg r.status), .exitCode 1], none)
    else if r.body = [] then
      ([.httpGet page], some acc)
    else
      let next := fetchLoop rest (page + 1) (acc ++ r.body)
      (.httpGet page :: next.1, next.2)

/-- `get_all_gists`: pages from page 1, accumulating bodies; a non-200 page
prints the status and exits 1 (result `none`); an empty page breaks the loop
and the accumulated list is returned. -/
def get_all_gists (pages : List PageResp) : List Event × Option (List Gist) :=
  fetchLoop pages 1 []

/-! ### `datetime.strptime` with format `%Y-%m-%dT%H:%M:%SZ` -/

/-- Numeric value of a decimal digit character. -/
def digitVal (c : Char) : Nat := c.toNat - 48

/-- `c` is a decimal digit whose value lies in `[lo, hi]`. -/
def digitBetween (c : Char) (lo hi : Nat) : Bool :=
  c.isDigit && lo ≤ digitVal c && digitVal c ≤ hi

/-- `%Y` component: exactly four digits (CPython pattern `\d\d\d\d`). -/
def matchYear : List Char → List (Nat × List Char)
  | a :: b :: c :: d :: rest =>
    if a.isDigit && b.isDigit && c.isDigit && d.isDigit then
      [(digitVal a * 1000 + digitVal b * 100 + digitVal c * 10 + digitVal d, rest)]
    else []
  | _ => []

/-- `%m` component: alternatives `1[0-2] | 0[1-9] | [1-9]`, in pattern
order. -/
def matchMonth : List Char → List (Nat × List Char)
  | [] => []
  | a :: rest =>
    (match rest with
     | b :: rest2 =>
       (if a = '1' && digitBetween b 0 2 then [(10 + digitVal b, rest2)] else []) ++
       (if a = '0' && digitBetween b 1 9 then [(digitVal b, rest2)] else [])
     | [] => []) ++
    (if digitBetween a 1 9 then [(digitVal a, rest)] else [])

/-- `%d` component: alternatives `3[01] | [12]\d | 0[1-9] | [1-9]`. -/
def matchDay : List Char → List (Nat × List Char)
  | [] => []
  | a :: rest =>
    (match rest with
     | b :: rest2 =>
       (if a = '3' && digitBetween b 0 1 then [(30 + digitVal b, rest2)] else []) ++
       (if digitBetween a 1 2 && b.isDigit then [(digitVal a * 10 + digitVal b, rest2)] else []) ++
       (if a = '0' && digitBetween b 1 9 then [(digitVal b, rest2)] else [])
     | [] => []) ++
    (if digitBetween a 1 9 then [(digitVal a, rest)] else [])

/-- `%H` component: alternatives `2[0-3] | [0-1]\d | \d`. -/
def matchHour : List Char → List (Nat × List Char)
  | [] => []
  | a :: rest =>
    (match rest with
     | b :: rest2 =>
       (if a = '2' && digitBetween b 0 3 then [(20 + digitVal b, rest2)] else []) ++
       (if digitBetween a 0 1 && b.isDigit then [(digitVal a * 10 + digitVal b, rest2)] else [])
     | [] => []) ++
    (if a.isDigit then [(digitVal a, rest)] else [])

/-- `%M` component: alternatives `[0-5]\d | \d`. -/
def matchMinute : List Char → List (Nat × List Char)
  | [] => []
  | a :: rest =>
    (match rest with
     | b :: rest2 =>
       if digitBetween a 0 5 && b.isDigit then [(digitVal a * 10 + digitVal b, rest2)] else []
     | [] => []) ++
    (if a.isDigit then [(digitVal a, rest)] else [])

/-- `%S` component: alternatives `6[0-1] | [0-5]\d | \d`. -/
def matchSecond : List Char → List (Nat × List Char)
  | [] => []
  | a :: rest =>
    (match rest with
     | b :: rest2 =>
       (if a = '6' && digitBetween b 0 1 then [(60 + digitVal b, rest2)] else []) ++
       (if digitBetween a 0 5 && b.isDigit then [(digitVal a * 10 + digitVal b, rest2)] else [])
     | [] => []) ++
    (if a.isDigit then [(digitVal a, rest)] else [])

/-- A literal of the format string; CPython compiles the pattern with
`re.IGNORECASE`, so literals match case-insensitively. -/
def matchLit (c : Char) : List Char → List (List Char)
  | a :: rest => if a.toLower = c.toLower then [rest] else []
  | [] => []

/-- The six numeric fields captured by the format. -/
structure DateTimeFields where
  year : Nat
  month : Nat
  day : Nat
  hour : Nat
  minute : Nat
  second : Nat
  deriving DecidableEq, Repr

/-- All parses of the full pattern `%Y-%m-%dT%H:%M:%SZ` against a prefix of
the input, in regex backtracking order (ordered alternation, leftmost
alternative first); each candidate carries the unconsumed suffix. -/
def matchCands (cs : List Char) : List (DateTimeFields × List Char) :=
  (matchYear cs).flatMap fun yc =>
  (matchLit '-' yc.2).flatMap fun r1 =>
  (matchMonth r1).flatMap fun mc =>
  (matchLit '-' mc.2).flatMap fun r2 =>
  (matchDay r2).flatMap fun dc =>
  (matchLit 'T' dc.2).flatMap fun r3 =>
  (matchHour r3).flatMap fun hc =>
  (matchLit ':' hc.2).flatMap fun r4 =>
  (matchMinute r4).flatMap fun nc =>
  (matchLit ':' nc.2).flatMap fun r5 =>
  (matchSecond r5).flatMap fun sc =>
  (matchLit 'Z' sc.2).map fun r6 => (⟨yc.1, mc.1, dc.1, hc.1, nc.1, sc.1⟩, r6)

/-- Gregorian leap year. -/
def isLeapYear (y : Nat) : Bool :=
  y % 4 = 0 && (y % 100 ≠ 0 || y % 400 = 0)

/-- Number of days in the given month of the given year. -/
def daysInMonth (y m : Nat) : Nat :=
  if m = 2 then (if isLeapYear y then 29 else 28)
  else if m = 4 || m = 6 || m = 9 || m = 11 then 30
  else 31

/-- `datetime.strptime(s, "%Y-%m-%dT%H:%M:%SZ")`: take the first match in
backtracking order (CPython's `re.match`), require it to consume the whole
string ("unconverted data remains" otherwise), then validate the fields that
the `datetime` constructor checks: year at least 1, day within the month,
second at most 59 (the pattern itself admits 60 and 61).  `none` models a
raised `ValueError`. -/
def strptimeYmdHMSZ (s : String) : Option DateTimeFields :=
  match (matchCands s.toList).head? with
  | none => none
  | some (f, rest) =>
    if rest = [] then
      if 1 ≤ f.year && 1 ≤ f.day && f.day ≤ daysInMonth f.year f.month && f.second ≤ 59 then
        some f
      else none
    else none

/-! ### `format_gist_info` -/

/-- Zero-padded two-digit rendering, as in `str(datetime)`. -/
def pad2 (n : Nat) : String :=
  if n < 10 then "0" ++ toString n else toString n

/-- Zero-padded four-digit rendering of the year. -/
def pad4 (n : Nat) : String :=
  if n < 10 then "000" ++ toString n
  else if n < 100 then "00" ++ toString n
  else if n < 1000 then "0" ++ toString n
  else toString n

/-- Python's `str(datetime(...))`: `YYYY-MM-DD HH:MM:SS`. -/
def dtStr (f : DateTimeFields) : String :=
  pad4 f.year ++ "-" ++ pad2 f.month ++ "-" ++ pad2 f.day ++ " " ++
    pad2 f.hour ++ ":" ++ pad2 f.minute ++ ":" ++ pad2 f.second

/-- `gist['description'] or '無描述'`: Python `or` takes the right operand
when the left is falsy, i.e. `None` or the empty string. -/
def descriptionOrPlaceholder : Option String → String
  | none => "無描述"
  | some d => if d = "" then "無描述" else d

/-- `format_gist_info`: parse `created_at` (an unhandled `ValueError` is
`none`), join the file names with `", "`, substitute the placeholder for a
falsy description, and assemble the display string. -/
def format_gist_info (g : Gist) : Option String :=
  match strptimeYmdHMSZ g.created_at with
  | none => none
  | some dt =>
    some ("ID: " ++ g.id ++ "\n  建立時間: " ++ dtStr dt ++ "\n  檔案: " ++
      String.intercalate ", " g.files ++ "\n  描述: " ++
      descriptionOrPlaceholder g.description)

/-! ### `_confirm_deletion` and `delete_gists` -/

/-- Whitespace for Python's `str.strip()` (the ASCII whitespace characters;
`strip` also removes some rarer Unicode whitespace, irrelevant here). -/
def isPySpace (c : Char) : Bool :=
  c = ' ' || c = '\t' || c = '\n' || c = '\r' || c = '\x0B' || c = '\x0C'

/-- Python's `str.lower()` on one character (the ASCII range; the compared
literal `'yes'` is ASCII). -/
def pyLowerChar (c : Char) : Char :=
  if 65 ≤ c.toNat && c.toNat ≤ 90 then Char.ofNat (c.toNat + 32) else c

/-- Python's `str.strip()`: drop leading and trailing whitespace. -/
def pyStrip (cs : List Char) : List Char :=
  ((cs.dropWhile isPySpace).reverse.dropWhile isPySpace).reverse

/-- The boolean computed by `_confirm_deletion`:
`input(...).strip().lower() == 'yes'`, over the character list. -/
def confirmAnswer (input : String) : Bool :=
  (pyStrip input.toList).map pyLowerChar == "yes".toList

/-- `_confirm_deletion count`: prints the warning naming the count and the
irreversibility notice, reads one line, and compares it (trimmed,
lowercased) with `'yes'`. -/
def confirm_deletion (count : Nat) (input : String) : List Event × Bool :=
  ([.print (confirmMsg count), .print MSG_IRREVERSIBLE, .promptRead], confirmAnswer input)

/-- Events of one iteration of the delete loop.  When the delete call
returns a status, the non-204 warning (if any) and then the sleep happen
inside the `try` block; when the call raises, control jumps straight to the
`except` handler, which prints the error line — the status check and the
sleep are skipped. -/
def attemptEvents (g : Gist) (r : DeleteResult) : List Event :=
  match r with
  | .status code =>
    .httpDelete g.id ::
      ((if code ≠ 204 then [.print (delWarnMsg g.id)] else []) ++ [.sleep])
  | .exn msg => [.httpDelete g.id, .print (delErrMsg g.id msg)]

/-- The `for i, gist in enumerate(gists)` loop, attempt outcomes taken
positionally from `rs` (default: a 204 status). -/
def deleteLoop : List Gist → List DeleteResult → List Event
  | [], _ => []
  | g :: gs, rs => attemptEvents g (rs.headD (.status 204)) ++ deleteLoop gs rs.tail

/-- `delete_gists`: gates on `_confirm_deletion(len(gists))`; if declined,
returns after the prompt, otherwise runs the sequential delete loop. -/
def delete_gists (gists : List Gist) (input : String) (results : List DeleteResult) :
    List Event :=
  let c := confirm_deletion gists.length input
  if c.2 then c.1 ++ deleteLoop gists results else c.1

/-! ### `run` and the program entry -/

/-- The display loop of `run`: prints `format_gist_info` of each gist; an
unparseable `created_at` raises an uncaught `ValueError`, aborting the loop
(and the run).  The boolean records whether the loop completed. -/
def displayLoop : List Gist → List Event × Bool
  | [] => ([], true)
  | g :: gs =>
    match format_gist_info g with
    | none => ([.raiseError "ValueError"], false)
    | some s =>
      let next := displayLoop gs
      (.print s :: next.1, next.2)

/-- `run`: fetch all gists (exits inside on a fetch failure); on an empty
collection print the none-found notice and return; otherwise print the
count, display every gist, delete after confirmation, and print the
completion notice. -/
def run (pages : List PageResp) (input : String) (results : List DeleteResult) :
    List Event :=
  let f := get_all_gists pages
  .print MSG_START ::
    f.1 ++
      (match f.2 with
       | none => []
       | some gists =>
         if gists = [] then [.print MSG_NONE_FOUND]
         else
           let d := displayLoop gists
           .print (foundMsg gists.length) ::
             d.1 ++
               (if d.2 then delete_gists gists input results ++ [.print MSG_DONE]
                else []))

/-- The `__main__` block: construct `GistDeleter` (whose `__init__` reads the
token and may exit) and call `run`. -/
def programMain (env : Option String) (pages : List PageResp) (input : String)
    (results : List DeleteResult) : List Event :=
  let t := get_github_token env
  t.1 ++ (match t.2 with
          | none => []
          | some _ => run pages input results)

/-! ### Trace observers -/

/-- The gist ids of the delete requests in a trace, in order. -/
def deleteRequests (t : List Event) : List String :=
  t.filterMap fun e => match e with
    | .httpDelete id => some id
    | _ => none

/-- The page numbers of the list requests in a trace, in order. -/
def getRequests (t : List Event) : List Nat :=
  t.filterMap fun e => match e with
    | .httpGet p => some p
    | _ => none

/-- Number of sleeps in a trace. -/
def sleepCount (t : List Event) : Nat :=
  t.countP fun e => match e with
    | .sleep => true
    | _ => false

/-- Number of printed lines in a trace. -/
def printCount (t : List Event) : Nat :=
  t.countP fun e => match e with
    | .print _ => true
    | _ => false

/-- A delete attempt whose call returned a status (did not raise). -/
def completedAttempt : DeleteResult → Bool
  | .status _ => true
  | .exn _ => false

/-! ### Concrete records used in closed statements -/

/-- A well-formed gist record. -/
def gA : Gist := ⟨"gistA", "2024-01-01T00:00:00Z", ["a.txt"], none⟩

/-- A second well-formed gist record, with a description. -/
def gB : Gist := ⟨"gistB", "2024-03-05T12:30:45Z", ["b.py"], some "demo"⟩

/-- A third well-formed gist record, with an empty description. -/
def gC : Gist := ⟨"gistC", "2023-12-31T23:59:59Z", ["c.md", "d.md"], some ""⟩

/-- A gist record whose `created_at` does not parse. -/
def gBad : Gist := ⟨"gistBad", "not-a-date", [], none⟩

/-- A page sequence that ends in an empty page but has a non-empty page
after its first empty page. -/
def pagesCE : List PageResp := [⟨200, [gA]⟩, ⟨200, []⟩, ⟨200, [gB]⟩, ⟨200, []⟩]

/-- A page sequence with one non-empty page followed by the empty page. -/
def pagesOne : List PageResp := [⟨200, [gA]⟩, ⟨200, []⟩]

/-- A page sequence whose second requested page fails with status 404. -/
def pagesBadFetch : List PageResp := [⟨200, [gA]⟩, ⟨404, []⟩]

/-- A page sequence delivering one gist whose `created_at` does not parse. -/
def pagesWithBadGist : List PageResp := [⟨200, [gBad]⟩, ⟨200, []⟩]

end RmAllGists

namespace RmAllGists

/-! ### Trace observer lemmas -/

theorem deleteRequests_append (s t : List Event) :
    deleteRequests (s ++ t) = deleteRequests s ++ deleteRequests t := by
  simp [deleteRequests]

theorem sleepCount_append (s t : List Event) :
    sleepCount (s ++ t) = sleepCount s + sleepCount t := by
  simp [sleepCount, List.countP_append]

/-! ### Pagination lemmas -/

theorem range'_succ_eq (s n : Nat) :
    List.range' s (n + 1) = s :: List.range' (s + 1) n := rfl

theorem fetchLoop_ok :
    ∀ (pages : List PageResp) (p : Nat) (acc : List Gist),
      (∀ q ∈ pages, q.status = 200) →
      fetchLoop pages p acc =
        ((List.range' p ((pages.takeWhile fun q => !decide (q.body = [])).length + 1)).map
            Event.httpGet,
         some (acc ++ (pages.takeWhile fun q => !decide (q.body = [])).flatMap PageResp.body))
  | [], p, acc, _ => by simp [fetchLoop, List.range']
  | r :: rest, p, acc, h => by
    have hs : r.status = 200 := h r (by simp)
    by_cases hb : r.body = []
    · simp [fetchLoop, hs, hb, List.range', List.takeWhile_cons]
    · have ih := fetchLoop_ok rest (p + 1) (acc ++ r.body) fun q hq => h q (by simp [hq])
      simp [fetchLoop, hs, hb, List.takeWhile_cons, ih, range'_succ_eq]

theorem fetchLoop_events_kinds :
    ∀ (pages : List PageResp) (p : Nat) (acc : List Gist),
      ∀ e ∈ (fetchLoop pages p acc).1,
        (∃ n, e = Event.httpGet n) ∨ (∃ s, e = Event.print s) ∨ e = Event.exitCode 1 := by
  intro pages
  induction pages with
  | nil =>
    intro p acc e he
    simp [fetchLoop] at he
    exact Or.inl ⟨p, he⟩
  | cons r rest ih =>
    intro p acc e he
    by_cases hs : r.status = 200
    · by_cases hb : r.body = []
      · simp [fetchLoop, hs, hb] at he
        exact Or.inl ⟨p, he⟩
      · simp [fetchLoop, hs, hb] at he
        rcases he with he | he
        · exact Or.inl ⟨p, he⟩
        · exact ih (p + 1) (acc ++ r.body) e he
    · simp [fetchLoop, hs] at he
      rcases he with he | he | he
      · exact Or.inl ⟨p, he⟩
      · exact Or.inr (Or.inl ⟨_, he⟩)
      · exact Or.inr (Or.inr he)

theorem fetch_deleteRequests (pages : List PageResp) (p : Nat) (acc : List Gist) :
    deleteRequests (fetchLoop pages p acc).1 = [] := by
  rw [deleteRequests, List.filterMap_eq_nil_iff]
  intro e he
  rcases fetchLoop_events_kinds pages p acc e he with ⟨n, rfl⟩ | ⟨s, rfl⟩ | rfl <;> rfl

theorem fetch_no_promptRead (pages : List PageResp) (p : Nat) (acc : List Gist) :
    Event.promptRead ∉ (fetchLoop pages p acc).1 := by
  intro he
  rcases fetchLoop_events_kinds pages p acc _ he with ⟨n, h⟩ | ⟨s, h⟩ | h <;> simp at h

theorem fetchLoop_fatal :
    ∀ (good : List PageResp) (bad : PageResp) (rest : List PageResp) (p : Nat)
      (acc : List Gist),
      (∀ q ∈ good, q.status = 200 ∧ q.body ≠ []) → bad.status ≠ 200 →
      ∃ evs, fetchLoop (good ++ bad :: rest) p acc =
        (evs ++ [Event.print (fetchFailMsg bad.status), Event.exitCode 1], none)
  | [], bad, rest, p, acc, _, hbad =>
    ⟨[Event.httpGet p], by simp [fetchLoop, hbad]⟩
  | r :: good, bad, rest, p, acc, h, hbad => by
    have hs : r.status = 200 := (h r (by simp)).1
    have hb : r.body ≠ [] := (h r (by simp)).2
    obtain ⟨evs, ih⟩ :=
      fetchLoop_fatal good bad rest (p + 1) (acc ++ r.body)
        (fun q hq => h q (by simp [hq])) hbad
    exact ⟨Event.httpGet p :: evs, by simp [fetchLoop, hs, hb, ih]⟩

end RmAllGists

namespace RmAllGists

/-! ### Deletion loop lemmas -/

theorem deleteRequests_attemptEvents (g : Gist) (r : DeleteResult) :
    deleteRequests (attemptEvents g r) = [g.id] := by
  cases r with
  | status code => by_cases h : code = 204 <;> simp [attemptEvents, h, deleteRequests]
  | exn msg => simp [attemptEvents, deleteRequests]

theorem sleepCount_attemptEvents (g : Gist) (r : DeleteResult) :
    sleepCount (attemptEvents g r) = if completedAttempt r then 1 else 0 := by
  cases r with
  | status code =>
    by_cases h : code = 204 <;> simp [attemptEvents, h, sleepCount, completedAttempt]
  | exn msg => simp [attemptEvents, sleepCount, completedAttempt]

theorem deleteLoop_requests :
    ∀ (gs : List Gist) (rs : List DeleteResult),
      deleteRequests (deleteLoop gs rs) = gs.map Gist.id := by
  intro gs
  induction gs with
  | nil => intro rs; simp [deleteLoop, deleteRequests]
  | cons g gs ih =>
    intro rs
    simp [deleteLoop, deleteRequests_append, deleteRequests_attemptEvents, ih]

theorem deleteLoop_sleeps :
    ∀ (gs : List Gist) (rs : List DeleteResult), rs.length = gs.length →
      sleepCount (deleteLoop gs rs) = rs.countP completedAttempt := by
  intro gs
  induction gs with
  | nil =>
    intro rs h
    have : rs = [] := List.length_eq_zero.mp h
    subst this
    simp [deleteLoop, sleepCount]
  | cons g gs ih =>
    intro rs h
    cases rs with
    | nil => simp at h
    | cons r rs =>
      have h2 : rs.length = gs.length := by simpa using h
      rw [deleteLoop]
      simp only [List.headD_cons, List.tail_cons]
      rw [sleepCount_append, sleepCount_attemptEvents, ih rs h2, List.countP_cons]
      by_cases hr : completedAttempt r = true
      · simp [hr]; omega
      · simp [hr]

theorem deleteLoop_split :
    ∀ (ys : List Gist) (rs1 : List DeleteResult) (gs2 : List Gist)
      (rs2 : List DeleteResult), rs1.length = ys.length →
      deleteLoop (ys ++ gs2) (rs1 ++ rs2) = deleteLoop ys rs1 ++ deleteLoop gs2 rs2 := by
  intro ys
  induction ys with
  | nil =>
    intro rs1 gs2 rs2 h
    have : rs1 = [] := List.length_eq_zero.mp h
    subst this
    simp [deleteLoop]
  | cons y ys ih =>
    intro rs1 gs2 rs2 h
    cases rs1 with
    | nil => simp at h
    | cons r rs1 =>
      have h2 : rs1.length = ys.length := by simpa using h
      simp [deleteLoop, ih rs1 gs2 rs2 h2]

theorem confirm_events_deleteRequests (count : Nat) (input : String) :
    deleteRequests (confirm_deletion count input).1 = [] := rfl

theorem confirm_events_sleepCount (count : Nat) (input : String) :
    sleepCount (confirm_deletion count input).1 = 0 := rfl

/-! ### Display loop lemmas -/

theorem displayLoop_events_kinds :
    ∀ (gs : List Gist), ∀ e ∈ (displayLoop gs).1,
      (∃ s, e = Event.print s) ∨ e = Event.raiseError "ValueError" := by
  intro gs
  induction gs with
  | nil => intro e he; simp [displayLoop] at he
  | cons g gs ih =>
    intro e he
    cases hf : format_gist_info g with
    | none =>
      simp [displayLoop, hf] at he
      exact Or.inr he
    | some s =>
      simp [displayLoop, hf] at he
      rcases he with he | he
      · exact Or.inl ⟨s, he⟩
      · exact ih e he

theorem display_deleteRequests (gs : List Gist) :
    deleteRequests (displayLoop gs).1 = [] := by
  rw [deleteRequests, List.filterMap_eq_nil_iff]
  intro e he
  rcases displayLoop_events_kinds gs e he with ⟨s, rfl⟩ | rfl <;> rfl

theorem display_no_promptRead (gs : List Gist) :
    Event.promptRead ∉ (displayLoop gs).1 := by
  intro he
  rcases displayLoop_events_kinds gs _ he with ⟨s, h⟩ | h <;> simp at h

theorem displayLoop_all_some :
    ∀ (gs : List Gist), (∀ g ∈ gs, (format_gist_info g).isSome = true) →
      (displayLoop gs).2 = true := by
  intro gs
  induction gs with
  | nil => intro _; simp [displayLoop]
  | cons g gs ih =>
    intro h
    obtain ⟨s, hs⟩ := Option.isSome_iff_exists.mp (h g (by simp))
    simp [displayLoop, hs]
    exact ih fun g hg => h g (by simp [hg])

theorem displayLoop_raise :
    ∀ (good : List Gist) (bad : Gist) (rest : List Gist),
      (∀ g ∈ good, (format_gist_info g).isSome = true) →
      format_gist_info bad = none →
      ∃ pre, (displayLoop (good ++ bad :: rest)).1 = pre ++ [Event.raiseError "ValueError"] ∧
        (displayLoop (good ++ bad :: rest)).2 = false ∧
        ∀ e ∈ pre, ∃ s, e = Event.print s := by
  intro good
  induction good with
  | nil =>
    intro bad rest _ hbad
    exact ⟨[], by simp [displayLoop, hbad]⟩
  | cons g good ih =>
    intro bad rest h hbad
    obtain ⟨s, hs⟩ := Option.isSome_iff_exists.mp (h g (by simp))
    obtain ⟨pre, h1, h2, h3⟩ := ih bad rest (fun g hg => h g (by simp [hg])) hbad
    refine ⟨Event.print s :: pre, ?_, ?_, ?_⟩
    · simp [displayLoop, hs, h1]
    · simp [displayLoop, hs, h2]
    · intro e he
      rcases List.mem_cons.mp he with rfl | he
      · exact ⟨s, rfl⟩
      · exact h3 e he

end RmAllGists

namespace RmAllGists

/-- Claim C1, counterexample to the statement as written: for a confirmed
deletion of one record whose delete call raises a transport exception, the
loop issues exactly one delete request but sleeps zero times — not once per
attempt as claimed ("including attempts that end in ... a transport
exception"). -/
theorem c1_counterexample :
    deleteRequests (delete_gists [gA] "yes" [DeleteResult.exn "boom"]) = [gA.id] ∧
    sleepCount (delete_gists [gA] "yes" [DeleteResult.exn "boom"]) = 0 ∧
    sleepCount (delete_gists [gA] "yes" [DeleteResult.exn "boom"]) ≠ 1 := by decide

/-- Claim C1 (amended): for every confirmed deletion of a sequence of N gist
records, `delete_gists` issues exactly N delete requests (one per record, in
order) and sleeps once after every attempt whose delete call returns a
status (including non-204 statuses), but not after attempts whose call
raises a transport exception — the sleep sits inside the `try` block, so the
number of sleeps equals the number of non-raising attempts. -/
theorem c1_delete_requests_and_sleeps (gists : List Gist) (input : String)
    (results : List DeleteResult) (hc : confirmAnswer input = true)
    (hlen : results.length = gists.length) :
    deleteRequests (delete_gists gists input results) = gists.map Gist.id ∧
    sleepCount (delete_gists gists input results) = results.countP completedAttempt := by
  have hshape : delete_gists gists input results =
      (confirm_deletion gists.length input).1 ++ deleteLoop gists results := by
    simp [delete_gists, confirm_deletion, hc]
  rw [hshape, deleteRequests_append, sleepCount_append, confirm_events_deleteRequests,
    confirm_events_sleepCount, deleteLoop_requests, deleteLoop_sleeps gists results hlen]
  simp

/-- Claim C1, witness: the amended theorem applied to two concrete records,
the second of which raises; both are requested and exactly the first sleeps. -/
theorem c1_delete_requests_and_sleeps_witness :
    deleteRequests (delete_gists [gA, gB] "yes"
        [DeleteResult.status 204, DeleteResult.exn "boom"]) = [gA.id, gB.id] ∧
    sleepCount (delete_gists [gA, gB] "yes"
        [DeleteResult.status 204, DeleteResult.exn "boom"]) =
      [DeleteResult.status 204, DeleteResult.exn "boom"].countP completedAttempt := by
  have h := c1_delete_requests_and_sleeps [gA, gB] "yes"
    [DeleteResult.status 204, DeleteResult.exn "boom"] (by decide) (by decide)
  simpa using h

/-- Claim C4: during a confirmed sequential deletion, a transport-level
exception raised by the delete call for one record is caught: that attempt
contributes exactly its delete request plus a single error line naming the
gist id, the loop continues with the remaining records, and every record in
the whole sequence still receives its delete request. -/
theorem c4_exception_isolated (ys zs : List Gist) (g : Gist) (msg : String)
    (rs1 rs2 : List DeleteResult) (input : String)
    (hc : confirmAnswer input = true) (hlen : rs1.length = ys.length) :
    delete_gists (ys ++ g :: zs) input (rs1 ++ DeleteResult.exn msg :: rs2) =
      (confirm_deletion (ys ++ g :: zs).length input).1 ++
        (deleteLoop ys rs1 ++
          ([Event.httpDelete g.id, Event.print (delErrMsg g.id msg)] ++
            deleteLoop zs rs2)) ∧
    deleteRequests (delete_gists (ys ++ g :: zs) input
        (rs1 ++ DeleteResult.exn msg :: rs2)) = (ys ++ g :: zs).map Gist.id ∧
    printCount [Event.httpDelete g.id, Event.print (delErrMsg g.id msg)] = 1 := by
  have hsplit : deleteLoop (ys ++ g :: zs) (rs1 ++ DeleteResult.exn msg :: rs2) =
      deleteLoop ys rs1 ++
        (attemptEvents g (DeleteResult.exn msg) ++ deleteLoop zs rs2) := by
    rw [deleteLoop_split ys rs1 (g :: zs) (DeleteResult.exn msg :: rs2) hlen]
    simp [deleteLoop]
  have hshape : delete_gists (ys ++ g :: zs) input (rs1 ++ DeleteResult.exn msg :: rs2) =
      (confirm_deletion (ys ++ g :: zs).length input).1 ++
        deleteLoop (ys ++ g :: zs) (rs1 ++ DeleteResult.exn msg :: rs2) := by
    simp [delete_gists, confirm_deletion, hc]
  refine ⟨?_, ?_, ?_⟩
  · rw [hshape, hsplit]; rfl
  · rw [hshape, deleteRequests_append, confirm_events_deleteRequests,
      deleteLoop_requests]
    simp
  · simp [printCount]

/-- Claim C4, witness: three concrete records with the middle delete raising;
the trace decomposes around the single error line and all three ids are
requested. -/
theorem c4_exception_isolated_witness :
    delete_gists ([gA] ++ gB :: [gC]) "yes"
        ([DeleteResult.status 204] ++ DeleteResult.exn "boom" :: [DeleteResult.status 404]) =
      (confirm_deletion ([gA] ++ gB :: [gC]).length "yes").1 ++
        (deleteLoop [gA] [DeleteResult.status 204] ++
          ([Event.httpDelete gB.id, Event.print (delErrMsg gB.id "boom")] ++
            deleteLoop [gC] [DeleteResult.status 404])) ∧
    deleteRequests (delete_gists ([gA] ++ gB :: [gC]) "yes"
        ([DeleteResult.status 204] ++ DeleteResult.exn "boom" :: [DeleteResult.status 404])) =
      ([gA] ++ gB :: [gC]).map Gist.id ∧
    printCount [Event.httpDelete gB.id, Event.print (delErrMsg gB.id "boom")] = 1 :=
  c4_exception_isolated [gA] [gC] gB "boom" [DeleteResult.status 204]
    [DeleteResult.status 404] "yes" (by decide) (by decide)

/-- Claim C5: the confirmation gate returns true exactly when the input
line, stripped of surrounding whitespace and lowercased, equals the literal
`yes`; in particular true for `"yes"`, `"YES"`, `" yes "` and false for
`"y"`, `""`, `"no"`. -/
theorem c5_confirmation_gate (count : Nat) (input : String) :
    ((confirm_deletion count input).2 = true ↔
      (pyStrip input.toList).map pyLowerChar = "yes".toList) ∧
    (confirm_deletion count "yes").2 = true ∧
    (confirm_deletion count "YES").2 = true ∧
    (confirm_deletion count " yes ").2 = true ∧
    (confirm_deletion count "y").2 = false ∧
    (confirm_deletion count "").2 = false ∧
    (confirm_deletion count "no").2 = false := by
  refine ⟨?_, rfl, rfl, rfl, rfl, rfl, rfl⟩
  simp [confirm_deletion, confirmAnswer]

/-- Claim C6: `format_gist_info` renders the fixed placeholder when the
description is `None` or empty, and renders the record's file names joined
by `", "`; concretely, files `a.txt, b.py` appear comma-joined in the
output.  (The embedding is a pure function of the record, which it does not
mutate.) -/
theorem c6_format_fields (g : Gist) (dt : DateTimeFields)
    (h : strptimeYmdHMSZ g.created_at = some dt)
    (hd : g.description = none ∨ g.description = some "") :
    format_gist_info g =
      some ("ID: " ++ g.id ++ "\n  建立時間: " ++ dtStr dt ++ "\n  檔案: " ++
        String.intercalate ", " g.files ++ "\n  描述: " ++ "無描述") ∧
    format_gist_info ⟨"x", "2024-01-01T00:00:00Z", ["a.txt", "b.py"], none⟩ =
      some "ID: x\n  建立時間: 2024-01-01 00:00:00\n  檔案: a.txt, b.py\n  描述: 無描述" := by
  constructor
  · rcases hd with hd | hd <;> simp [format_gist_info, h, hd, descriptionOrPlaceholder]
  · decide

/-- Claim C6, witness: the theorem applied to a concrete record with no
description. -/
theorem c6_format_fields_witness :
    format_gist_info gA =
      some ("ID: " ++ gA.id ++ "\n  建立時間: " ++ dtStr ⟨2024, 1, 1, 0, 0, 0⟩ ++
        "\n  檔案: " ++ String.intercalate ", " gA.files ++ "\n  描述: " ++ "無描述") ∧
    format_gist_info ⟨"x", "2024-01-01T00:00:00Z", ["a.txt", "b.py"], none⟩ =
      some "ID: x\n  建立時間: 2024-01-01 00:00:00\n  檔案: a.txt, b.py\n  描述: 無描述" :=
  c6_format_fields gA ⟨2024, 1, 1, 0, 0, 0⟩ (by decide) (Or.inl rfl)

end RmAllGists

namespace RmAllGists

/-! ### Further trace observer lemmas -/

theorem deleteRequests_nil : deleteRequests [] = [] := rfl

theorem deleteRequests_print_cons (s : String) (t : List Event) :
    deleteRequests (Event.print s :: t) = deleteRequests t := rfl

theorem deleteRequests_get_all_gists (pages : List PageResp) :
    deleteRequests (get_all_gists pages).1 = [] :=
  fetch_deleteRequests pages 1 []

theorem deleteRequests_display (gs : List Gist) :
    deleteRequests (displayLoop gs).1 = [] :=
  display_deleteRequests gs

theorem getRequests_httpGet_cons (a : Nat) (t : List Event) :
    getRequests (Event.httpGet a :: t) = a :: getRequests t := rfl

theorem getRequests_map_httpGet (l : List Nat) :
    getRequests (l.map Event.httpGet) = l := by
  induction l with
  | nil => rfl
  | cons a l ih => rw [List.map_cons, getRequests_httpGet_cons, ih]

/-- Claim C2, counterexample to the statement as written: `pagesCE` ends in
an empty page, yet the fetch returns only the first page's gist — not the
concatenation of the non-empty pages, because the loop stops at the first
empty page and never sees the later non-empty page. -/
theorem c2_counterexample :
    pagesCE.getLast? = some ⟨200, []⟩ ∧
    (∀ q ∈ pagesCE, q.status = 200) ∧
    ((pagesCE.filter fun q => !decide (q.body = [])).flatMap PageResp.body) = [gA, gB] ∧
    (get_all_gists pagesCE).2 = some [gA] ∧
    (get_all_gists pagesCE).2 ≠
      some ((pagesCE.filter fun q => !decide (q.body = [])).flatMap PageResp.body) := by
  decide

/-- Claim C2 (amended): for every sequence of all-200 page responses ending
in an empty page, `get_all_gists` returns exactly the concatenation of the
pages strictly before the first empty page, in server order, and it requests
exactly pages `1, 2, ..., t + 1` in increasing order, where page `t + 1` is
the first empty page — so it never requests any page after the first empty
page. -/
theorem c2_fetch_concatenation (pages : List PageResp)
    (hstat : ∀ q ∈ pages, q.status = 200)
    (_hend : pages.getLast? = some ⟨200, []⟩) :
    (get_all_gists pages).2 =
      some ((pages.takeWhile fun q => !decide (q.body = [])).flatMap PageResp.body) ∧
    getRequests (get_all_gists pages).1 =
      List.range' 1 ((pages.takeWhile fun q => !decide (q.body = [])).length + 1) := by
  have h := fetchLoop_ok pages 1 [] hstat
  unfold get_all_gists
  rw [h]
  exact ⟨by simp, getRequests_map_httpGet _⟩

/-- Claim C2, witness: the amended theorem applied to `pagesOne`: the single
non-empty page is returned and pages 1 and 2 are requested. -/
theorem c2_fetch_concatenation_witness :
    (get_all_gists pagesOne).2 =
      some ((pagesOne.takeWhile fun q => !decide (q.body = [])).flatMap PageResp.body) ∧
    getRequests (get_all_gists pagesOne).1 =
      List.range' 1 ((pagesOne.takeWhile fun q => !decide (q.body = [])).length + 1) :=
  c2_fetch_concatenation pagesOne (by decide) (by decide)

/-- Claim C3: if a requested page returns a non-200 status (every earlier
page being 200 and non-empty, so this page is reached), `get_all_gists`
prints the status code, its trace ends with exit code 1, and no gist list —
in particular no partial one — is returned to the caller. -/
theorem c3_fetch_fatal (good : List PageResp) (bad : PageResp) (rest : List PageResp)
    (hgood : ∀ q ∈ good, q.status = 200 ∧ q.body ≠ []) (hbad : bad.status ≠ 200) :
    (get_all_gists (good ++ bad :: rest)).2 = none ∧
    Event.print (fetchFailMsg bad.status) ∈ (get_all_gists (good ++ bad :: rest)).1 ∧
    (get_all_gists (good ++ bad :: rest)).1.getLast? = some (Event.exitCode 1) := by
  obtain ⟨evs, h⟩ := fetchLoop_fatal good bad rest 1 [] hgood hbad
  have h1 : (get_all_gists (good ++ bad :: rest)).1 =
      evs ++ [Event.print (fetchFailMsg bad.status), Event.exitCode 1] := by
    show (fetchLoop (good ++ bad :: rest) 1 []).1 = _
    rw [h]
  have h2 : (get_all_gists (good ++ bad :: rest)).2 = none := by
    show (fetchLoop (good ++ bad :: rest) 1 []).2 = _
    rw [h]
  refine ⟨h2, ?_, ?_⟩
  · rw [h1]; simp
  · rw [h1, show evs ++ [Event.print (fetchFailMsg bad.status), Event.exitCode 1] =
        (evs ++ [Event.print (fetchFailMsg bad.status)]) ++ [Event.exitCode 1] by simp]
    exact List.getLast?_concat _

/-- Claim C3, witness: a 404 on the second page after one good page. -/
theorem c3_fetch_fatal_witness :
    (get_all_gists ([⟨200, [gA]⟩] ++ (⟨404, []⟩ : PageResp) :: [])).2 = none ∧
    Event.print (fetchFailMsg (404 : Nat)) ∈
      (get_all_gists ([⟨200, [gA]⟩] ++ (⟨404, []⟩ : PageResp) :: [])).1 ∧
    (get_all_gists ([⟨200, [gA]⟩] ++ (⟨404, []⟩ : PageResp) :: [])).1.getLast? =
      some (Event.exitCode 1) :=
  c3_fetch_fatal [⟨200, [gA]⟩] ⟨404, []⟩ [] (by decide) (by decide)

/-- Claim C7: when the fetched collection is empty, `run` prints the
none-found notice and returns cleanly — its trace is exactly the start
message, the fetch events and the notice; the confirmation prompt is never
read and no delete request is issued. -/
theorem c7_run_empty (pages : List PageResp) (input : String)
    (results : List DeleteResult) (h : (get_all_gists pages).2 = some []) :
    run pages input results =
      Event.print MSG_START :: (get_all_gists pages).1 ++ [Event.print MSG_NONE_FOUND] ∧
    Event.promptRead ∉ run pages input results ∧
    deleteRequests (run pages input results) = [] := by
  have hshape : run pages input results =
      Event.print MSG_START :: (get_all_gists pages).1 ++ [Event.print MSG_NONE_FOUND] := by
    simp [run, h]
  refine ⟨hshape, ?_, ?_⟩
  · rw [hshape]
    intro hmem
    rcases List.mem_cons.mp hmem with h1 | h1
    · exact Event.noConfusion h1
    · rcases List.mem_append.mp h1 with h2 | h2
      · exact fetch_no_promptRead pages 1 [] h2
      · simp at h2
  · rw [hshape]
    rw [show Event.print MSG_START :: (get_all_gists pages).1 ++ [Event.print MSG_NONE_FOUND] =
        Event.print MSG_START :: ((get_all_gists pages).1 ++ [Event.print MSG_NONE_FOUND])
      from rfl]
    rw [deleteRequests_print_cons, deleteRequests_append, deleteRequests_get_all_gists]
    rfl

/-- Claim C7, witness: a server with no gists at all. -/
theorem c7_run_empty_witness :
    run [] "whatever" [] =
      Event.print MSG_START :: (get_all_gists []).1 ++ [Event.print MSG_NONE_FOUND] ∧
    Event.promptRead ∉ run [] "whatever" [] ∧
    deleteRequests (run [] "whatever" []) = [] :=
  c7_run_empty [] "whatever" [] rfl

/-- Claim C8: with the token environment variable absent or empty, the
program prints the diagnostic message and the three-shell setup guide and
exits with code 1; its whole trace is those three events, so no network
call (no list or delete request) is ever issued. -/
theorem c8_missing_token (env : Option String) (pages : List PageResp) (input : String)
    (results : List DeleteResult) (h : env = none ∨ env = some "") :
    programMain env pages input results =
      [Event.print MSG_TOKEN_NOT_FOUND, Event.print MSG_TOKEN_SETUP_GUIDE,
        Event.exitCode 1] ∧
    getRequests (programMain env pages input results) = [] ∧
    deleteRequests (programMain env pages input results) = [] := by
  rcases h with rfl | rfl <;> exact ⟨rfl, rfl, rfl⟩

/-- Claim C8, witness: the theorem applied to an absent variable. -/
theorem c8_missing_token_witness :
    programMain none [⟨200, [gA]⟩] "yes" [DeleteResult.status 204] =
      [Event.print MSG_TOKEN_NOT_FOUND, Event.print MSG_TOKEN_SETUP_GUIDE,
        Event.exitCode 1] ∧
    getRequests (programMain none [⟨200, [gA]⟩] "yes" [DeleteResult.status 204]) = [] ∧
    deleteRequests (programMain none [⟨200, [gA]⟩] "yes" [DeleteResult.status 204]) = [] :=
  c8_missing_token none [⟨200, [gA]⟩] "yes" [DeleteResult.status 204] (Or.inl rfl)

/-- Claim C9: for a non-empty fetched collection whose records all format,
`run` ends with the completion notice even when the confirmation gate
returns false — and in that case no delete request is issued at all. -/
theorem c9_decline_still_completes (pages : List PageResp) (gists : List Gist)
    (input : String) (results : List DeleteResult)
    (hf : (get_all_gists pages).2 = some gists) (hne : gists ≠ [])
    (hdisp : ∀ g ∈ gists, (format_gist_info g).isSome = true)
    (hno : confirmAnswer input = false) :
    (run pages input results).getLast? = some (Event.print MSG_DONE) ∧
    deleteRequests (run pages input results) = [] := by
  have hd2 := displayLoop_all_some gists hdisp
  have hdel : delete_gists gists input results =
      (confirm_deletion gists.length input).1 := by
    simp [delete_gists, confirm_deletion, hno]
  have hshape : run pages input results =
      (Event.print MSG_START :: ((get_all_gists pages).1 ++
        Event.print (foundMsg gists.length) :: ((displayLoop gists).1 ++
          (confirm_deletion gists.length input).1))) ++ [Event.print MSG_DONE] := by
    simp [run, hf, hne, hd2, hdel]
  constructor
  · rw [hshape]
    exact List.getLast?_concat _
  · rw [hshape]
    rw [show (Event.print MSG_START :: ((get_all_gists pages).1 ++
        Event.print (foundMsg gists.length) :: ((displayLoop gists).1 ++
          (confirm_deletion gists.length input).1))) ++ [Event.print MSG_DONE] =
        Event.print MSG_START :: ((get_all_gists pages).1 ++
        Event.print (foundMsg gists.length) :: ((displayLoop gists).1 ++
          ((confirm_deletion gists.length input).1 ++ [Event.print MSG_DONE])))
      by simp]
    rw [deleteRequests_print_cons, deleteRequests_append, deleteRequests_get_all_gists,
      deleteRequests_print_cons, deleteRequests_append, deleteRequests_display,
      deleteRequests_append, confirm_events_deleteRequests]
    rfl

/-- Claim C9, witness: one gist fetched, confirmation answered `"no"`. -/
theorem c9_decline_still_completes_witness :
    (run pagesOne "no" []).getLast? = some (Event.print MSG_DONE) ∧
    deleteRequests (run pagesOne "no" []) = [] :=
  c9_decline_still_completes pagesOne [gA] "no" [] (by decide) (by decide)
    (by decide) (by decide)

/-- Claim C10: a fetched record whose `created_at` does not match the fixed
format makes the display phase raise an uncaught `ValueError`: the run trace
ends at the raise, the confirmation prompt is never read and no delete
request is issued; and over the total embedding, `format_gist_info` errors
exactly on records whose `created_at` fails the `strptime` parse. -/
theorem c10_bad_timestamp_aborts (pages : List PageResp) (good : List Gist)
    (bad : Gist) (rest : List Gist) (input : String) (results : List DeleteResult)
    (hf : (get_all_gists pages).2 = some (good ++ bad :: rest))
    (hgood : ∀ g ∈ good, (format_gist_info g).isSome = true)
    (hbad : strptimeYmdHMSZ bad.created_at = none) :
    (run pages input results).getLast? = some (Event.raiseError "ValueError") ∧
    Event.promptRead ∉ run pages input results ∧
    deleteRequests (run pages input results) = [] ∧
    (∀ g : Gist, format_gist_info g = none ↔ strptimeYmdHMSZ g.created_at = none) := by
  have hbadf : format_gist_info bad = none := by simp [format_gist_info, hbad]
  obtain ⟨pre, h1, h2, h3⟩ := displayLoop_raise good bad rest hgood hbadf
  have hne : good ++ bad :: rest ≠ [] := by simp
  have hpre : deleteRequests pre = [] := by
    rw [deleteRequests, List.filterMap_eq_nil_iff]
    intro e he
    obtain ⟨s, rfl⟩ := h3 e he
    rfl
  have hshape : run pages input results =
      (Event.print MSG_START :: ((get_all_gists pages).1 ++
        Event.print (foundMsg (good ++ bad :: rest).length) :: pre)) ++
        [Event.raiseError "ValueError"] := by
    simp [run, hf, hne, h1, h2]
  refine ⟨?_, ?_, ?_, ?_⟩
  · rw [hshape]
    exact List.getLast?_concat _
  · rw [hshape]
    intro hmem
    rcases List.mem_append.mp hmem with hm | hm
    · rcases List.mem_cons.mp hm with h0 | h0
      · exact Event.noConfusion h0
      · rcases List.mem_append.mp h0 with hq | hq
        · exact fetch_no_promptRead pages 1 [] hq
        · rcases List.mem_cons.mp hq with h5 | h5
          · exact Event.noConfusion h5
          · obtain ⟨s, hs⟩ := h3 _ h5
            exact Event.noConfusion hs
    · simp at hm
  · rw [hshape]
    rw [show (Event.print MSG_START :: ((get_all_gists pages).1 ++
        Event.print (foundMsg (good ++ bad :: rest).length) :: pre)) ++
          [Event.raiseError "ValueError"] =
        Event.print MSG_START :: ((get_all_gists pages).1 ++
        Event.print (foundMsg (good ++ bad :: rest).length) ::
          (pre ++ [Event.raiseError "ValueError"]))
      by simp]
    rw [deleteRequests_print_cons, deleteRequests_append, deleteRequests_get_all_gists,
      deleteRequests_print_cons, deleteRequests_append, hpre]
    rfl
  · intro g
    constructor
    · intro hn
      cases hcase : strptimeYmdHMSZ g.created_at with
      | none => rfl
      | some dt => rw [format_gist_info, hcase] at hn; exact Option.noConfusion hn
    · intro hn
      simp [format_gist_info, hn]

/-- Claim C10, witness: a fetch delivering one record with `created_at`
`"not-a-date"`; the run aborts at the raise with no prompt and no delete. -/
theorem c10_bad_timestamp_aborts_witness :
    (run pagesWithBadGist "yes" []).getLast? = some (Event.raiseError "ValueError") ∧
    Event.promptRead ∉ run pagesWithBadGist "yes" [] ∧
    deleteRequests (run pagesWithBadGist "yes" []) = [] ∧
    (∀ g : Gist, format_gist_info g = none ↔ strptimeYmdHMSZ g.created_at = none) :=
  c10_bad_timestamp_aborts pagesWithBadGist [] gBad [] "yes" [] (by decide)
    (by decide) (by decide)

end RmAllGists
